import Mathlib

/-!
Shallow embedding of the asio-grpc execution engine
(src/src/agrpc/detail/grpc_context_implementation.ipp) and of the client
call-context reference (detail/rpc_client_context_base.hpp).

Operations are identified by natural numbers (their node addresses).  The
engine state is the set of fields of `agrpc::GrpcContext` that the embedded
functions touch.  Observable behaviour (completion invocations,
outstanding-work decrements, remote-queue drains, completion-queue polls) is
recorded in an effect trace.  Continuations are modelled by an environment
assigning to each operation the local operations its continuation enqueues
and whether it faults.
-/

namespace AsioGrpc

/-- Result classification passed to an operation's completion entry point
(`detail::OperationResult`). -/
inductive OperationResult where
  | OK
  | NOT_OK
  | SHUTDOWN_OK
  | SHUTDOWN_NOT_OK
deriving DecidableEq, Repr

/-- Whether handlers are invoked normally (`YES`) or in shutdown "did not
happen" mode (`NO`) - `detail::InvokeHandler`. -/
inductive InvokeHandler where
  | YES
  | NO
deriving DecidableEq, Repr

/-- A completion-queue tag: either the distinguished wake tag
(`GrpcContextImplementation::HAS_REMOTE_WORK_TAG`) or the address of an
operation. -/
inductive Tag where
  | hasRemoteWork
  | op (id : Nat)
deriving DecidableEq, Repr

/-- One event returned by `grpc::CompletionQueue::AsyncNext`
(`detail::GrpcCompletionQueueEvent`). -/
structure GrpcCompletionQueueEvent where
  tag : Tag
  ok : Bool
deriving DecidableEq, Repr

/-- State of the multi-producer atomic remote queue
(`detail::AtomicIntrusiveQueue`): its active/inactive marker and its
pending items in FIFO order. -/
structure RemoteQueue where
  active : Bool
  items : List Nat
deriving DecidableEq, Repr

/-- Modelled from the spec: `AtomicIntrusiveQueue::enqueue`
(atomic_intrusive_queue.hpp is not under src/).  "enqueue(node) lock-free
pushes and reports whether the queue transitioned from inactive to active
(so the producer knows whether it alone must wake the consumer)." -/
def RemoteQueue.enqueue (q : RemoteQueue) (id : Nat) : RemoteQueue × Bool :=
  (⟨true, q.items ++ [id]⟩, !q.active)

/-- Modelled from the spec: `AtomicIntrusiveQueue::try_mark_inactive_or_dequeue_all`
(atomic_intrusive_queue.hpp is not under src/).  "atomically either marks the
queue inactive (if empty, so a future producer knows to signal a wake) or
claims and reverses the whole pending chain into FIFO order for the
consumer." -/
def RemoteQueue.try_mark_inactive_or_dequeue_all (q : RemoteQueue) : RemoteQueue × List Nat :=
  if q.items.isEmpty then (⟨false, []⟩, []) else (⟨q.active, []⟩, q.items)

/-- The fields of `agrpc::GrpcContext` read or written by the embedded
engine functions. -/
structure GrpcContext where
  shutdown : Bool
  outstanding_work : Int
  local_work_queue : List Nat
  remote_work_queue : RemoteQueue
  check_remote_work : Bool
  stopped : Bool
  notify_when_done_list : List Nat
deriving DecidableEq, Repr

/-- Observable actions of the engine, in the order they happen. -/
inductive Effect where
  /-- An operation's completion entry point was invoked with this result. -/
  | completed (id : Nat) (r : OperationResult)
  /-- The outstanding-work counter was decremented (`WorkFinishedOnExit`). -/
  | workFinished
  /-- The remote queue was drained into the local queue; `found` reports
  whether anything was pending. -/
  | drainedRemote (found : Bool)
  /-- The completion source was polled; `zeroTimeout` tells whether with a
  zero timeout (`TIME_ZERO`) or blocking up to the caller's deadline. -/
  | polled (zeroTimeout : Bool)
deriving DecidableEq, Repr

/-- Behaviour of user continuations: which local operations each
continuation enqueues while it runs, and whether it faults (throws). -/
structure Env where
  enqueues : Nat → List Nat
  faults : Nat → Bool

/-- Common shape of the results of the engine's processing functions: the
new context, the `bool` the C++ function returns (event handled / work
processed), the trace of observable effects, and whether a continuation
fault escaped. -/
structure StepResult where
  ctx : GrpcContext
  handled : Bool
  trace : List Effect
  fault : Bool
deriving Repr

/-- `GrpcContextImplementation::is_shutdown`: reads the monotonic shutdown
flag. -/
def is_shutdown (ctx : GrpcContext) : Bool := ctx.shutdown

/-- `GrpcContext::is_stopped`, as used by `IsGrpcContextStoppedPredicate`. -/
def is_stopped (ctx : GrpcContext) : Bool := ctx.stopped

/-- `detail::IsGrpcContextStoppedPredicate`: the default stop predicate of
the run loop. -/
def IsGrpcContextStoppedPredicate (ctx : GrpcContext) : Bool := is_stopped ctx

/-- `GrpcContext::work_finished`: decrement the outstanding-work counter. -/
def work_finished (ctx : GrpcContext) : GrpcContext :=
  { ctx with outstanding_work := ctx.outstanding_work - 1 }

/-- `GrpcContextImplementation::running_in_this_thread`: compares this
context's address with the submitting thread's thread-local
`thread_local_grpc_context` marker. -/
def running_in_this_thread (selfAddr : Nat) (thread_local_ctx : Option Nat) : Bool :=
  thread_local_ctx = some selfAddr

/-- `GrpcContextImplementation::add_local_operation`: push onto the local
work queue. -/
def add_local_operation (ctx : GrpcContext) (op : Nat) : GrpcContext :=
  { ctx with local_work_queue := ctx.local_work_queue ++ [op] }

/-- `GrpcContextImplementation::add_remote_operation`: enqueue on the atomic
remote queue and fire the zero-delay wake alarm
(`trigger_work_alarm`) exactly when the enqueue reported an
inactive-to-active transition.  The returned boolean records whether the
alarm was fired. -/
def add_remote_operation (ctx : GrpcContext) (op : Nat) : GrpcContext × Bool :=
  let p := ctx.remote_work_queue.enqueue op
  ({ ctx with remote_work_queue := p.1 }, p.2)

/-- `GrpcContextImplementation::add_operation`: same-thread submissions go
to the local queue, others to the atomic remote queue.  `selfAddr` is this
context's address, `thread_local_ctx` the submitting thread's thread-local
marker.  The returned boolean records whether the wake alarm was fired. -/
def add_operation (selfAddr : Nat) (thread_local_ctx : Option Nat) (ctx : GrpcContext)
    (op : Nat) : GrpcContext × Bool :=
  if running_in_this_thread selfAddr thread_local_ctx then
    (add_local_operation ctx op, false)
  else
    add_remote_operation ctx op

/-- `GrpcContextImplementation::move_remote_work_to_local_queue`: dequeue
everything from the remote queue (or mark it inactive when empty) and append
it to the local queue; returns whether anything was found. -/
def move_remote_work_to_local_queue (ctx : GrpcContext) : Bool × GrpcContext :=
  let p := ctx.remote_work_queue.try_mark_inactive_or_dequeue_all
  if p.2.isEmpty then
    (false, { ctx with remote_work_queue := p.1 })
  else
    (true, { ctx with remote_work_queue := p.1, local_work_queue := ctx.local_work_queue ++ p.2 })

/-- Running an operation's continuation: it may enqueue further same-thread
work onto the local queue, as described by the environment. -/
def runCompletion (env : Env) (id : Nat) (ctx : GrpcContext) : GrpcContext :=
  { ctx with local_work_queue := ctx.local_work_queue ++ env.enqueues id }

/-- `detail::process_grpc_tag`: invoke the operation behind a
completion-queue tag with the given result; `WorkFinishedOnExit` decrements
outstanding work on scope exit, also when the continuation faults. -/
def process_grpc_tag (env : Env) (id : Nat) (result : OperationResult) (ctx : GrpcContext) :
    StepResult :=
  if env.faults id then
    ⟨work_finished ctx, true, [Effect.completed id result, Effect.workFinished], true⟩
  else
    ⟨work_finished (runCompletion env id ctx), true,
      [Effect.completed id result, Effect.workFinished], false⟩

/-- The while-loop of `GrpcContextImplementation::process_local_queue`,
running over the snapshot taken by moving the queue out.  Each iteration
decrements outstanding work on scope exit (`WorkFinishedOnExit`); a faulting
continuation escapes the loop after its own decrement. -/
def processOps (env : Env) (result : OperationResult) :
    List Nat → GrpcContext → StepResult
  | [], ctx => ⟨ctx, false, [], false⟩
  | id :: rest, ctx =>
    if env.faults id then
      ⟨work_finished ctx, true, [Effect.completed id result, Effect.workFinished], true⟩
    else
      let r := processOps env result rest (work_finished (runCompletion env id ctx))
      ⟨r.ctx, true, Effect.completed id result :: Effect.workFinished :: r.trace, r.fault⟩

/-- `GrpcContextImplementation::process_local_queue`: move the entire local
queue out (so work enqueued by continuations lands in the next pass) and
complete every entry with `SHUTDOWN_NOT_OK` when invocation is disabled and
`OK` otherwise. -/
def process_local_queue (env : Env) (ctx : GrpcContext) (invoke : InvokeHandler) : StepResult :=
  let result :=
    if invoke = InvokeHandler.NO then OperationResult.SHUTDOWN_NOT_OK else OperationResult.OK
  processOps env result ctx.local_work_queue { ctx with local_work_queue := [] }

/-- `GrpcContextImplementation::handle_next_completion_queue_event`: the
`event` argument is what `AsyncNext` returned for this poll (`none` =
timeout).  The wake tag only sets the check-remote-work flag; any other tag
is classified by ok/not-ok (with SHUTDOWN_* when invocation is disabled) and
dispatched via `process_grpc_tag`. -/
def handle_next_completion_queue_event (env : Env) (ctx : GrpcContext)
    (event : Option GrpcCompletionQueueEvent) (invoke : InvokeHandler) : StepResult :=
  match event with
  | none => ⟨ctx, false, [], false⟩
  | some ev =>
    match ev.tag with
    | Tag.hasRemoteWork => ⟨{ ctx with check_remote_work := true }, true, [], false⟩
    | Tag.op id =>
      let result :=
        if invoke = InvokeHandler.NO then
          (if ev.ok then OperationResult.SHUTDOWN_OK else OperationResult.SHUTDOWN_NOT_OK)
        else
          (if ev.ok then OperationResult.OK else OperationResult.NOT_OK)
      let p := process_grpc_tag env id result ctx
      ⟨p.ctx, true, p.trace, p.fault⟩

/-- `GrpcContextImplementation::do_one`: one iteration of the run loop.
`event` is what the completion source would return for the (at most one)
poll this iteration performs. -/
def do_one (env : Env) (ctx : GrpcContext) (event : Option GrpcCompletionQueueEvent)
    (invoke : InvokeHandler) (stop_predicate : GrpcContext → Bool) : StepResult :=
  let s1 : GrpcContext × List Effect :=
    if ctx.check_remote_work then
      let p := move_remote_work_to_local_queue ctx
      ({ p.2 with check_remote_work := p.1 }, [Effect.drainedRemote p.1])
    else (ctx, [])
  let r2 := process_local_queue env s1.1 invoke
  if r2.fault then
    ⟨r2.ctx, r2.handled, s1.2 ++ r2.trace, true⟩
  else
    let is_more_completed_work_pending :=
      r2.ctx.check_remote_work || !r2.ctx.local_work_queue.isEmpty
    if !is_more_completed_work_pending && stop_predicate r2.ctx then
      ⟨r2.ctx, r2.handled, s1.2 ++ r2.trace, false⟩
    else
      let r3 := handle_next_completion_queue_event env r2.ctx event invoke
      ⟨r3.ctx, r2.handled || r3.handled,
        s1.2 ++ r2.trace ++ Effect.polled is_more_completed_work_pending :: r3.trace, r3.fault⟩

/-- The loop of `GrpcContextImplementation::deallocate_notify_when_done_list`:
pop every entry and force-complete it with `SHUTDOWN_NOT_OK`. -/
def notify_when_done_loop (env : Env) : List Nat → GrpcContext → GrpcContext × List Effect
  | [], ctx => (ctx, [])
  | id :: rest, ctx =>
    let p := notify_when_done_loop env rest (runCompletion env id ctx)
    (p.1, Effect.completed id OperationResult.SHUTDOWN_NOT_OK :: p.2)

/-- `GrpcContextImplementation::deallocate_notify_when_done_list`: walk the
notify-when-done list until empty, force-completing each entry with
`SHUTDOWN_NOT_OK`. -/
def deallocate_notify_when_done_list (env : Env) (ctx : GrpcContext) :
    GrpcContext × List Effect :=
  notify_when_done_loop env ctx.notify_when_done_list { ctx with notify_when_done_list := [] }

/-- Modelled from the spec: the run variants that disable handler invocation
are the shutdown-phase drains (the `GrpcContext` destructor, which is not
under src/, sets the shutdown flag and then drains with
`InvokeHandler::NO`), while all run variants under src/ pass
`InvokeHandler::YES`.  "Subsequent completions are classified
SHUTDOWN_OK/SHUTDOWN_NOT_OK instead of OK/NOT_OK." -/
def invoke_handler_during (shutdown : Bool) : InvokeHandler :=
  if shutdown then InvokeHandler.NO else InvokeHandler.YES

/-- Modelled from the spec: `detail::AtomicTaggedPtr<grpc::ClientContext>`
(tagged_ptr.hpp is not under src/).  "CallContextRef: tagged reference
(context pointer + 2 bookkeeping bits: writes-done-issued, finished); null =
already finished."  The pointer is the client context's address. -/
structure AtomicTaggedPtr where
  ptr : Option Nat
  bit0 : Bool
  bit1 : Bool
deriving DecidableEq, Repr

/-- The all-zero (null) tagged word. -/
def AtomicTaggedPtr.null : AtomicTaggedPtr := ⟨none, false, false⟩

/-- Modelled from the spec: `AtomicTaggedPtr::clear` exchanges the tagged
word with null and returns the previous value (the move constructor of
`AutoCancelClientContextRef` initializes itself from it). -/
def AtomicTaggedPtr.clear (p : AtomicTaggedPtr) : AtomicTaggedPtr × AtomicTaggedPtr :=
  (AtomicTaggedPtr.null, p)

/-- Modelled from the spec: `AtomicTaggedPtr::get` masks the bits off and
yields the raw pointer. -/
def AtomicTaggedPtr.get (p : AtomicTaggedPtr) : Option Nat := p.ptr

/-- Modelled from the spec: `AtomicTaggedPtr::is_null`. -/
def AtomicTaggedPtr.is_null (p : AtomicTaggedPtr) : Bool := p.ptr.isNone

/-- Modelled from the spec: `AtomicTaggedPtr::set_bit<0>` (the
writes-done-issued bit). -/
def AtomicTaggedPtr.set_bit0 (p : AtomicTaggedPtr) : AtomicTaggedPtr := { p with bit0 := true }

/-- `detail::AutoCancelClientContextRef`: exclusively owned tagged reference
to a `grpc::ClientContext`. -/
structure AutoCancelClientContextRef where
  context_ : AtomicTaggedPtr
deriving DecidableEq, Repr

/-- `AutoCancelClientContextRef::cancel`: issues `TryCancel` on the
underlying context exactly when the stored pointer is non-null.  Returns
whether a cancel was issued. -/
def AutoCancelClientContextRef.cancel (r : AutoCancelClientContextRef) : Bool :=
  r.context_.get.isSome

/-- `AutoCancelClientContextRef::is_null`. -/
def AutoCancelClientContextRef.is_null (r : AutoCancelClientContextRef) : Bool :=
  r.context_.is_null

/-- `AutoCancelClientContextRef::clear`. -/
def AutoCancelClientContextRef.clear (r : AutoCancelClientContextRef) :
    AutoCancelClientContextRef :=
  ⟨(r.context_.clear).1⟩

/-- The move constructor `AutoCancelClientContextRef(AutoCancelClientContextRef&&)`:
`context_(other.context_.clear())`.  Returns the constructed reference and
the moved-from source. -/
def AutoCancelClientContextRef.move_construct (other : AutoCancelClientContextRef) :
    AutoCancelClientContextRef × AutoCancelClientContextRef :=
  let p := other.context_.clear
  (⟨p.2⟩, ⟨p.1⟩)

/-- The move assignment `operator=(AutoCancelClientContextRef&&)` for
distinct objects: cancels the destination's current context, then takes the
source's word, nulling the source.  Returns ((new destination, new source),
whether a cancel was issued on the old destination). -/
def AutoCancelClientContextRef.move_assign (dst src : AutoCancelClientContextRef) :
    (AutoCancelClientContextRef × AutoCancelClientContextRef) × Bool :=
  let cancelled := dst.cancel
  let p := src.context_.clear
  ((⟨p.2⟩, ⟨p.1⟩), cancelled)

/-- The destructor `~AutoCancelClientContextRef`: calls `cancel()`.  Returns
whether a best-effort cancel was issued. -/
def AutoCancelClientContextRef.destroy (r : AutoCancelClientContextRef) : Bool :=
  r.cancel

/-- `detail::RPCClientContextBase`: wraps the auto-cancelling context
reference; finished is represented by nullness. -/
structure RPCClientContextBase where
  client_context_ : AutoCancelClientContextRef
deriving DecidableEq, Repr

/-- `RPCClientContextBase::is_finished`: the call is finished exactly when
the reference is null. -/
def RPCClientContextBase.is_finished (r : RPCClientContextBase) : Bool :=
  r.client_context_.is_null

/-- `RPCClientContextBase::set_finished`: clears the reference. -/
def RPCClientContextBase.set_finished (r : RPCClientContextBase) : RPCClientContextBase :=
  ⟨r.client_context_.clear⟩

/-- State of a high-level client call: its context reference and the cached
status of the finished call. -/
structure RPC where
  context : RPCClientContextBase
  status_ : Nat
deriving DecidableEq, Repr

/-- Modelled from the spec: the high-level client call's `finish`
(high_level_client.hpp is not under src/; src/ holds its context base and
tests).  "Finish is idempotent - a second finish call returns the cached
status without re-issuing work."  If the call is already finished the cached
status is returned and no wire work is issued; otherwise the finish step is
issued on the wire (yielding `wireStatus`), the status is cached and the
call marked finished.  Returns (new state, returned status, whether wire
work was issued). -/
def RPC.finish (rpc : RPC) (wireStatus : Nat) : RPC × Nat × Bool :=
  if rpc.context.is_finished then
    (rpc, rpc.status_, false)
  else
    ({ context := rpc.context.set_finished, status_ := wireStatus }, wireStatus, true)

/-- An environment whose continuations enqueue nothing and never fault. -/
def env0 : Env := ⟨fun _ => [], fun _ => false⟩

/-- Recognizes completion-invocation effects. -/
def isCompletedEffect : Effect → Bool
  | Effect.completed _ _ => true
  | _ => false

/-- Recognizes outstanding-work-decrement effects. -/
def isWorkFinishedEffect : Effect → Bool
  | Effect.workFinished => true
  | _ => false

/-- An idle engine: nothing queued, not stopped, not shut down. -/
def ctx_idle : GrpcContext := ⟨false, 0, [], ⟨false, []⟩, false, false, []⟩

/-- A stopped engine with no queued work. -/
def ctx_stopped : GrpcContext := ⟨false, 0, [], ⟨false, []⟩, false, true, []⟩

/-- An engine with the single operation `7` on its local queue. -/
def ctx_one : GrpcContext := ⟨false, 1, [7], ⟨false, []⟩, false, false, []⟩

/-! ## Helper lemmas -/

/-- Characterization of the local-queue processing loop when no involved
continuation faults: every snapshot entry is completed with the given
result (in order, decrementing outstanding work each time), and the work the
continuations enqueue is appended to the live local queue. -/
theorem processOps_no_fault (env : Env) (result : OperationResult) (q : List Nat)
    (ctx : GrpcContext) (hf : ∀ id, env.faults id = false) :
    processOps env result q ctx =
      ⟨{ ctx with
           outstanding_work := ctx.outstanding_work - q.length,
           local_work_queue := ctx.local_work_queue ++ q.flatMap env.enqueues },
        !q.isEmpty,
        q.flatMap (fun id => [Effect.completed id result, Effect.workFinished]),
        false⟩ := by
  induction q generalizing ctx with
  | nil => simp [processOps]
  | cons id rest ih =>
    simp only [processOps, hf id, Bool.false_eq_true, if_false]
    rw [ih]
    simp only [work_finished, runCompletion, StepResult.mk.injEq, GrpcContext.mk.injEq]
    refine ⟨⟨trivial, by simp only [List.length_cons]; push_cast; ring,
      by simp [List.append_assoc], trivial, trivial, trivial, trivial⟩, by simp, by simp, trivial⟩

/-- In the local-queue loop the number of outstanding-work decrements always
equals the number of completion invocations, fault or no fault, and the
counter drops by exactly that number. -/
theorem processOps_counts (env : Env) (result : OperationResult) (q : List Nat)
    (ctx : GrpcContext) :
    ((processOps env result q ctx).trace.countP isWorkFinishedEffect
        = (processOps env result q ctx).trace.countP isCompletedEffect)
    ∧ (processOps env result q ctx).ctx.outstanding_work
        = ctx.outstanding_work
            - (processOps env result q ctx).trace.countP isCompletedEffect := by
  induction q generalizing ctx with
  | nil => simp [processOps]
  | cons id rest ih =>
    by_cases hf : env.faults id
    · simp [processOps, hf, List.countP_cons, isCompletedEffect, isWorkFinishedEffect,
        work_finished]
    · obtain ⟨h1, h2⟩ := ih (work_finished (runCompletion env id ctx))
      have hw : (work_finished (runCompletion env id ctx)).outstanding_work
          = ctx.outstanding_work - 1 := rfl
      rw [hw] at h2
      refine ⟨?_, ?_⟩
      · simp only [processOps, hf, Bool.false_eq_true, if_false]
        simp [List.countP_cons, isCompletedEffect, isWorkFinishedEffect, h1]
      · simp only [processOps, hf, Bool.false_eq_true, if_false]
        simp only [List.countP_cons, isCompletedEffect, isWorkFinishedEffect]
        rw [h2]
        push_cast
        ring

/-- Every completion invocation performed by the local-queue loop carries
the single result the loop was started with. -/
theorem processOps_mem_completed (env : Env) (result : OperationResult) (q : List Nat)
    (ctx : GrpcContext) (id : Nat) (r : OperationResult)
    (h : Effect.completed id r ∈ (processOps env result q ctx).trace) : r = result := by
  induction q generalizing ctx with
  | nil => simp [processOps] at h
  | cons hd rest ih =>
    by_cases hf : env.faults hd
    · simp [processOps, hf] at h
      exact h.2
    · simp only [processOps, hf, Bool.false_eq_true, if_false, List.mem_cons] at h
      rcases h with h | h | h
      · exact (Effect.completed.injEq _ _ _ _).mp h |>.2
      · cases h
      · exact ih _ h

/-- The notify-when-done walk completes exactly the listed entries, in
order, each with `SHUTDOWN_NOT_OK`, and does not touch the
notify-when-done list field it was started from. -/
theorem notify_when_done_loop_spec (env : Env) (lst : List Nat) (ctx : GrpcContext) :
    (notify_when_done_loop env lst ctx).2
        = lst.map (fun id => Effect.completed id OperationResult.SHUTDOWN_NOT_OK)
    ∧ (notify_when_done_loop env lst ctx).1.notify_when_done_list
        = ctx.notify_when_done_list := by
  induction lst generalizing ctx with
  | nil => simp [notify_when_done_loop]
  | cons id rest ih =>
    obtain ⟨h1, h2⟩ := ih (runCompletion env id ctx)
    refine ⟨?_, ?_⟩
    · show (Effect.completed id OperationResult.SHUTDOWN_NOT_OK
          :: (notify_when_done_loop env rest (runCompletion env id ctx)).2) = _
      rw [h1]
      rfl
    · show (notify_when_done_loop env rest (runCompletion env id ctx)).1.notify_when_done_list = _
      rw [h2]
      rfl

/-! ## Claim theorems -/

/-- C6: Whenever the completion queue yields the distinguished
has-remote-work wake tag, the engine only sets the check-remote-work flag:
the event is never dispatched as an operation, no completion entry point is
invoked, and the outstanding-work counter is not decremented, in every
state. -/
theorem C6_wake_tag_only_sets_flag (env : Env) (ctx : GrpcContext) (ok : Bool)
    (invoke : InvokeHandler) :
    handle_next_completion_queue_event env ctx (some ⟨Tag.hasRemoteWork, ok⟩) invoke
      = ⟨{ ctx with check_remote_work := true }, true, [], false⟩ := rfl

/-- C1: For every completion-queue event carrying a non-wake tag, dispatch
classifies the ok flag into SHUTDOWN_OK/SHUTDOWN_NOT_OK when the engine is
shutting down and into OK/NOT_OK otherwise, and the operation's completion
is invoked with exactly that result. -/
theorem C1_dispatch_classification (env : Env) (ctx : GrpcContext) (id : Nat) (ok : Bool) :
    (handle_next_completion_queue_event env ctx (some ⟨Tag.op id, ok⟩)
        (invoke_handler_during (is_shutdown ctx))).trace
      = [Effect.completed id
            (if is_shutdown ctx then
               (if ok then OperationResult.SHUTDOWN_OK else OperationResult.SHUTDOWN_NOT_OK)
             else
               (if ok then OperationResult.OK else OperationResult.NOT_OK)),
          Effect.workFinished]
    ∧ (handle_next_completion_queue_event env ctx (some ⟨Tag.op id, ok⟩)
        (invoke_handler_during (is_shutdown ctx))).handled = true := by
  cases h : ctx.shutdown <;> cases ok <;> cases hf : env.faults id <;>
    simp [handle_next_completion_queue_event, invoke_handler_during, is_shutdown, h, hf,
      process_grpc_tag]

/-- C7: On a call whose finish has already completed, a second finish
returns the identical cached status, issues no wire work, and leaves the
call state unchanged. -/
theorem C7_finish_idempotent (rpc : RPC) (s1 s2 : Nat) :
    ((rpc.finish s1).1.finish s2).2.1 = (rpc.finish s1).2.1
    ∧ ((rpc.finish s1).1.finish s2).2.2 = false
    ∧ ((rpc.finish s1).1.finish s2).1 = (rpc.finish s1).1 := by
  rcases rpc with ⟨⟨⟨⟨p, b0, b1⟩⟩⟩, st⟩
  cases p <;>
    simp [RPC.finish, RPCClientContextBase.is_finished, RPCClientContextBase.set_finished,
      AutoCancelClientContextRef.is_null, AutoCancelClientContextRef.clear,
      AtomicTaggedPtr.clear, AtomicTaggedPtr.is_null, AtomicTaggedPtr.null]

/-- C8: The call-context reference has exclusive ownership: moving from it
(by construction or assignment) leaves the source null, the target takes
over the exact tagged word, and destruction issues a best-effort cancel
exactly when the reference is non-null (null meaning already finished). -/
theorem C8_auto_cancel_ownership (r dst src : AutoCancelClientContextRef) :
    (r.move_construct.2.is_null = true)
    ∧ (r.move_construct.1.context_ = r.context_)
    ∧ ((AutoCancelClientContextRef.move_assign dst src).1.2.is_null = true)
    ∧ (r.destroy = !r.is_null) := by
  rcases r with ⟨⟨p, b0, b1⟩⟩
  refine ⟨rfl, rfl, rfl, ?_⟩
  cases p <;>
    simp [AutoCancelClientContextRef.destroy, AutoCancelClientContextRef.cancel,
      AutoCancelClientContextRef.is_null, AtomicTaggedPtr.get, AtomicTaggedPtr.is_null]

/-- C3: Same-thread submissions are pushed onto the local queue with the
atomic remote queue untouched and no alarm; all other submissions are
enqueued on the atomic remote queue and the zero-delay wake alarm is fired
exactly when the enqueue transitioned the queue from inactive to active. -/
theorem C3_add_operation_routing (selfAddr : Nat) (tls : Option Nat) (ctx : GrpcContext)
    (op : Nat) :
    (tls = some selfAddr →
      add_operation selfAddr tls ctx op
        = ({ ctx with local_work_queue := ctx.local_work_queue ++ [op] }, false))
    ∧ (tls ≠ some selfAddr →
      add_operation selfAddr tls ctx op
        = ({ ctx with remote_work_queue := ⟨true, ctx.remote_work_queue.items ++ [op]⟩ },
            !ctx.remote_work_queue.active)) := by
  constructor
  · intro h
    simp [add_operation, running_in_this_thread, h, add_local_operation]
  · intro h
    simp [add_operation, running_in_this_thread, h, add_remote_operation, RemoteQueue.enqueue]

/-- Witness for C3 at concrete inputs. -/
theorem C3_add_operation_routing_witness :
    (add_operation 0 (some 0) ctx_idle 7
        = ({ ctx_idle with local_work_queue := ctx_idle.local_work_queue ++ [7] }, false))
    ∧ (add_operation 0 none ctx_idle 7
        = ({ ctx_idle with remote_work_queue := ⟨true, ctx_idle.remote_work_queue.items ++ [7]⟩ },
            !ctx_idle.remote_work_queue.active)) :=
  ⟨(C3_add_operation_routing 0 (some 0) ctx_idle 7).1 rfl,
   (C3_add_operation_routing 0 none ctx_idle 7).2 (by simp)⟩

/-- C9: The same-thread fast path is keyed to the identity of the engine: a
submission from a thread whose thread-local marker names a different engine
compares unequal, is routed to the atomic remote queue, and never touches
this engine's local queue. -/
theorem C9_cross_engine_goes_remote (selfAddr otherAddr : Nat) (ctx : GrpcContext) (op : Nat)
    (h : otherAddr ≠ selfAddr) :
    running_in_this_thread selfAddr (some otherAddr) = false
    ∧ (add_operation selfAddr (some otherAddr) ctx op).1.local_work_queue
        = ctx.local_work_queue
    ∧ (add_operation selfAddr (some otherAddr) ctx op).1.remote_work_queue.items
        = ctx.remote_work_queue.items ++ [op] := by
  simp [running_in_this_thread, add_operation, add_remote_operation, RemoteQueue.enqueue, h]

/-- Witness for C9: thread running engine 1 submits to engine 0. -/
theorem C9_cross_engine_goes_remote_witness :
    (1 ≠ 0)
    ∧ (running_in_this_thread 0 (some 1) = false
       ∧ (add_operation 0 (some 1) ctx_idle 7).1.local_work_queue = ctx_idle.local_work_queue
       ∧ (add_operation 0 (some 1) ctx_idle 7).1.remote_work_queue.items
           = ctx_idle.remote_work_queue.items ++ [7]) :=
  ⟨by decide, C9_cross_engine_goes_remote 0 1 ctx_idle 7 (by decide)⟩

/-- C4: At shutdown finalization every entry on the notify-when-done list is
force-completed with `SHUTDOWN_NOT_OK`, each entry exactly once and in
order, and the list is left empty - for all registered entries, including
calls that never produced a queue-visible completion event. -/
theorem C4_notify_when_done_shutdown (env : Env) (ctx : GrpcContext) :
    (deallocate_notify_when_done_list env ctx).2
        = ctx.notify_when_done_list.map
            (fun id => Effect.completed id OperationResult.SHUTDOWN_NOT_OK)
    ∧ (deallocate_notify_when_done_list env ctx).1.notify_when_done_list = [] := by
  obtain ⟨h1, h2⟩ := notify_when_done_loop_spec env ctx.notify_when_done_list
    { ctx with notify_when_done_list := [] }
  exact ⟨h1, h2⟩

/-- C5: Every dispatch - a completion-queue tag via `process_grpc_tag` or a
local-queue entry inside `process_local_queue` - decrements the
outstanding-work counter exactly once on scope exit, even when the
continuation faults and the fault escapes the dispatch. -/
theorem C5_work_decrement_per_dispatch (env : Env) (id : Nat) (result : OperationResult)
    (ctx : GrpcContext) (invoke : InvokeHandler) :
    ((process_grpc_tag env id result ctx).trace
        = [Effect.completed id result, Effect.workFinished]
     ∧ (process_grpc_tag env id result ctx).ctx.outstanding_work = ctx.outstanding_work - 1
     ∧ (process_grpc_tag env id result ctx).fault = env.faults id)
    ∧ ((process_local_queue env ctx invoke).trace.countP isWorkFinishedEffect
         = (process_local_queue env ctx invoke).trace.countP isCompletedEffect
       ∧ (process_local_queue env ctx invoke).ctx.outstanding_work
           = ctx.outstanding_work
               - (process_local_queue env ctx invoke).trace.countP isCompletedEffect) := by
  constructor
  · cases hf : env.faults id <;> simp [process_grpc_tag, hf, work_finished, runCompletion]
  · exact processOps_counts env _ ctx.local_work_queue { ctx with local_work_queue := [] }

/-- C10: When the engine drains its local queue with handler invocation
disabled, every completion it performs carries `SHUTDOWN_NOT_OK`, uniformly;
with invocation enabled, every completion carries `OK`. -/
theorem C10_local_queue_uniform_result (env : Env) (ctx : GrpcContext) (id : Nat)
    (r : OperationResult) :
    (Effect.completed id r ∈ (process_local_queue env ctx InvokeHandler.NO).trace
       → r = OperationResult.SHUTDOWN_NOT_OK)
    ∧ (Effect.completed id r ∈ (process_local_queue env ctx InvokeHandler.YES).trace
       → r = OperationResult.OK) := by
  constructor
  · intro h
    exact processOps_mem_completed env _ ctx.local_work_queue _ id r h
  · intro h
    exact processOps_mem_completed env _ ctx.local_work_queue _ id r h

/-- Witness for C10 on a queue holding the single operation `7`. -/
theorem C10_local_queue_uniform_result_witness :
    (Effect.completed 7 OperationResult.SHUTDOWN_NOT_OK
        ∈ (process_local_queue env0 ctx_one InvokeHandler.NO).trace)
    ∧ OperationResult.SHUTDOWN_NOT_OK = OperationResult.SHUTDOWN_NOT_OK :=
  ⟨by decide,
   (C10_local_queue_uniform_result env0 ctx_one 7 OperationResult.SHUTDOWN_NOT_OK).1 (by decide)⟩

/-- C2 counterexample: on a stopped engine with no queued work, an iteration
of `do_one` (with the run loop's stop predicate) returns without polling the
completion source at all - its trace holds no poll effect - whereas the
claim's step (3) requires every iteration to poll with a zero timeout or
block up to the caller-supplied deadline. -/
theorem C2_do_one_counterexample :
    is_stopped ctx_stopped = true
    ∧ (do_one env0 ctx_stopped none InvokeHandler.YES IsGrpcContextStoppedPredicate).trace = []
    ∧ Effect.polled false
        ∉ (do_one env0 ctx_stopped none InvokeHandler.YES IsGrpcContextStoppedPredicate).trace
    ∧ Effect.polled true
        ∉ (do_one env0 ctx_stopped none InvokeHandler.YES IsGrpcContextStoppedPredicate).trace :=
  ⟨rfl, rfl, by decide, by decide⟩

/-- C2 (amended): Every iteration of `do_one` follows the three steps in
order - (1) when the check-remote-work flag is set, drain the remote queue
into the local queue, leaving the flag set exactly when something was found;
(2) snapshot the entire local queue and run every snapshot entry's
completion, deferring work enqueued during the pass to the next one; (3)
poll the completion source with a zero timeout when local or remote work is
still pending and block up to the caller-supplied deadline otherwise -
except that when no work is pending and the caller's stop predicate already
holds, `do_one` returns without polling the completion source at all. -/
theorem C2_do_one_steps (env : Env) (ctx : GrpcContext)
    (event : Option GrpcCompletionQueueEvent) (invoke : InvokeHandler)
    (stop_predicate : GrpcContext → Bool) (hf : ∀ id, env.faults id = false) :
    do_one env ctx event invoke stop_predicate =
      (let found := !ctx.remote_work_queue.items.isEmpty
       let snapshot :=
         if ctx.check_remote_work && found then
           ctx.local_work_queue ++ ctx.remote_work_queue.items
         else ctx.local_work_queue
       let result :=
         if invoke = InvokeHandler.NO then OperationResult.SHUTDOWN_NOT_OK
         else OperationResult.OK
       let ctx2 : GrpcContext :=
         { ctx with
             check_remote_work := ctx.check_remote_work && found,
             remote_work_queue :=
               if ctx.check_remote_work then
                 (if found then ⟨ctx.remote_work_queue.active, []⟩ else ⟨false, []⟩)
               else ctx.remote_work_queue,
             local_work_queue := snapshot.flatMap env.enqueues,
             outstanding_work := ctx.outstanding_work - snapshot.length }
       let tr12 :=
         (if ctx.check_remote_work then [Effect.drainedRemote found] else [])
           ++ snapshot.flatMap (fun id => [Effect.completed id result, Effect.workFinished])
       let pending := ctx2.check_remote_work || !ctx2.local_work_queue.isEmpty
       if !pending && stop_predicate ctx2 then
         ⟨ctx2, !snapshot.isEmpty, tr12, false⟩
       else
         let r3 := handle_next_completion_queue_event env ctx2 event invoke
         ⟨r3.ctx, !snapshot.isEmpty || r3.handled,
           tr12 ++ Effect.polled pending :: r3.trace, r3.fault⟩) := by
  by_cases hc : ctx.check_remote_work
  · by_cases he : ctx.remote_work_queue.items.isEmpty
    · simp only [do_one, move_remote_work_to_local_queue,
        RemoteQueue.try_mark_inactive_or_dequeue_all, process_local_queue, hc, he, if_true,
        Bool.not_true, Bool.true_and]
      rw [processOps_no_fault env _ _ _ hf]
      simp [List.append_assoc]
    · simp only [do_one, move_remote_work_to_local_queue,
        RemoteQueue.try_mark_inactive_or_dequeue_all, process_local_queue, hc, he, if_true,
        if_false, Bool.not_false, Bool.true_and]
      rw [processOps_no_fault env _ _ _ hf]
      simp [List.append_assoc, he]
  · simp only [do_one, process_local_queue, hc, if_false, Bool.false_and]
    rw [processOps_no_fault env _ _ _ hf]
    simp [List.append_assoc, hc]

/-- Witness for C2 (amended) at concrete inputs. -/
theorem C2_do_one_steps_witness :
    (∀ id, env0.faults id = false)
    ∧ (do_one env0 ctx_one none InvokeHandler.YES IsGrpcContextStoppedPredicate =
        (let found := !ctx_one.remote_work_queue.items.isEmpty
         let snapshot :=
           if ctx_one.check_remote_work && found then
             ctx_one.local_work_queue ++ ctx_one.remote_work_queue.items
           else ctx_one.local_work_queue
         let result :=
           if InvokeHandler.YES = InvokeHandler.NO then OperationResult.SHUTDOWN_NOT_OK
           else OperationResult.OK
         let ctx2 : GrpcContext :=
           { ctx_one with
               check_remote_work := ctx_one.check_remote_work && found,
               remote_work_queue :=
                 if ctx_one.check_remote_work then
                   (if found then ⟨ctx_one.remote_work_queue.active, []⟩ else ⟨false, []⟩)
                 else ctx_one.remote_work_queue,
               local_work_queue := snapshot.flatMap env0.enqueues,
               outstanding_work := ctx_one.outstanding_work - snapshot.length }
         let tr12 :=
           (if ctx_one.check_remote_work then [Effect.drainedRemote found] else [])
             ++ snapshot.flatMap (fun id => [Effect.completed id result, Effect.workFinished])
         let pending := ctx2.check_remote_work || !ctx2.local_work_queue.isEmpty
         if !pending && IsGrpcContextStoppedPredicate ctx2 then
           ⟨ctx2, !snapshot.isEmpty, tr12, false⟩
         else
           let r3 := handle_next_completion_queue_event env0 ctx2 none InvokeHandler.YES
           ⟨r3.ctx, !snapshot.isEmpty || r3.handled,
             tr12 ++ Effect.polled pending :: r3.trace, r3.fault⟩)) :=
  ⟨fun _ => rfl,
   C2_do_one_steps env0 ctx_one none InvokeHandler.YES IsGrpcContextStoppedPredicate
     (fun _ => rfl)⟩

end AsioGrpc
